import Mathlib

/-!
Verification of the iroh node builder and supervisor
(src/iroh/src/node/builder.rs) against its natural-language specification.

The Rust code is shallowly embedded: pure control flow becomes Lean
functions, async side effects (store shutdown, handler shutdown, GC phases)
become explicit event traces, and fallible calls become `Except`.
External crate values (secret keys, relay modes, endpoints, handlers) are
abstracted to opaque identifiers; the ALPN byte strings defined by the
external iroh-blobs, iroh-gossip and iroh-docs crates are modelled as
distinct Lean strings, since only their identity matters here.
-/

set_option autoImplicit false

namespace Iroh

/-- An ALPN identifier: an opaque byte string with bytewise equality,
modelled as a Lean string. -/
abbrev Alpn := String

/-- The canonical blob ALPN, `iroh_blobs::protocol::ALPN` (external crate). -/
def BLOBS_ALPN : Alpn := "/iroh-bytes/4"

/-- The canonical gossip ALPN, `iroh_gossip::net::GOSSIP_ALPN` (external crate). -/
def GOSSIP_ALPN : Alpn := "/iroh-gossip/0"

/-- The canonical document-sync ALPN, `iroh_docs::net::DOCS_ALPN` (external crate). -/
def DOCS_ALPN : Alpn := "/iroh-sync/1"

/-- builder.rs line 46:
`pub const PROTOCOLS: [&[u8]; 3] = [iroh_blobs::protocol::ALPN, GOSSIP_ALPN, DOCS_ALPN];` -/
def PROTOCOLS : List Alpn := [BLOBS_ALPN, GOSSIP_ALPN, DOCS_ALPN]

/-- A protocol handler (`Arc<dyn Protocol>`). The three built-in handlers
registered by `Builder::spawn` are distinguished from user handlers, which
are abstracted to numbered identifiers. -/
inductive ProtoHandler where
  | builtinBlobs
  | builtinGossip
  | builtinDocs
  | user (id : Nat)
deriving DecidableEq, Repr

/-- Modelled from the spec: the `ProtocolMap` registry type lives in
`src/iroh/src/node/protocol.rs`, which is not under src/. Per the spec
(§3) the registry is a mapping from ALPN bytes to a protocol handler with
unique keys, where a duplicate-ALPN insertion overrides the earlier entry
(§4.1), and which offers an ordered, deterministic (insertion-order)
iterator used at shutdown (§4.7). We model its contents as an association
list with unique keys in insertion order. -/
abbrev ProtocolMap := List (Alpn × ProtoHandler)

/-- Modelled from the spec: insertion into the registry. A duplicate ALPN
overrides the earlier entry in place; a new ALPN is appended, preserving
insertion order. -/
def insertProto : ProtocolMap → Alpn → ProtoHandler → ProtocolMap
  | [], a, h => [(a, h)]
  | (k, v) :: rest, a, h =>
      if k = a then (k, h) :: rest else (k, v) :: insertProto rest a h

/-- Modelled from the spec: lookup-by-ALPN in the registry
(the `ProtocolMap::get_any` used by `handle_connection`). -/
def lookupProto : ProtocolMap → Alpn → Option ProtoHandler
  | [], _ => none
  | (k, v) :: rest, a => if k = a then some v else lookupProto rest a

/-- The full registration vector (`self.protocols`) as it stands when
`spawn_inner` runs (builder.rs lines 413-470): the user registrations made
via `Builder::accept` are already in the vector, and `spawn` then pushes the
blobs registration, the gossip registration, and — when a docs store is
configured — the docs registration, in that order, each via `accept`
(which appends, line 387). -/
def spawnRegistrations (docsEnabled : Bool) (user : List (Alpn × ProtoHandler)) :
    List (Alpn × ProtoHandler) :=
  user ++ [(BLOBS_ALPN, ProtoHandler.builtinBlobs), (GOSSIP_ALPN, ProtoHandler.builtinGossip)]
    ++ (if docsEnabled then [(DOCS_ALPN, ProtoHandler.builtinDocs)] else [])

/-- The registry of the spawned node: `spawn_inner` iterates the
registration vector in order and inserts each handler into the
`ProtocolMap` (builder.rs lines 576-579). -/
def registryOf (docsEnabled : Bool) (user : List (Alpn × ProtoHandler)) : ProtocolMap :=
  (spawnRegistrations docsEnabled user).foldl (fun m p => insertProto m p.1 p.2) []

/-- The ALPN list handed to the endpoint builder (builder.rs lines 506-510):
`PROTOCOLS.iter().chain(self.protocols.iter().map(|(alpn, _)| alpn)).map(|p| p.to_vec()).collect()`
— the three `PROTOCOLS` constants followed by the ALPN of every entry of the
registration vector, collected into a `Vec` (duplicates retained). -/
def alpnsOf (protocols : List (Alpn × ProtoHandler)) : List Alpn :=
  PROTOCOLS ++ protocols.map Prod.fst

/-- The ALPN list the spawned endpoint advertises, for a builder with the
given user registrations. -/
def advertisedAlpns (docsEnabled : Bool) (user : List (Alpn × ProtoHandler)) : List Alpn :=
  alpnsOf (spawnRegistrations docsEnabled user)

/-- Deduplication keeping the first occurrence of each element. -/
def dedupKeepFirst : List Alpn → List Alpn
  | [] => []
  | a :: rest => a :: (dedupKeepFirst rest).filter (fun b => b ≠ a)

/-- The spec's words for the advertised ALPN list (§4.2, claim C6): the
union — each ALPN appearing once — of the built-in ALPNs and the
user-registered ALPNs, preserving insertion order. Written from the spec,
to be compared with `advertisedAlpns`, which is written from the source. -/
def specAdvertisedUnion (user : List (Alpn × ProtoHandler)) : List Alpn :=
  dedupKeepFirst (PROTOCOLS ++ user.map Prod.fst)

/-- The application-level close code, `iroh_blobs::protocol::Closed`
(external crate); `run` closes the endpoint with
`Closed::ProviderTerminating` (builder.rs line 737). -/
inductive Closed where
  | providerTerminating
deriving DecidableEq, Repr

/-- An awaited side effect of the supervisor shutdown path
(builder.rs lines 667-741). -/
inductive ShutdownEvent where
  | storeShutdown
  | handlerShutdown (h : ProtoHandler)
  | endpointClose (code : Closed)
deriving DecidableEq, Repr

/-- The manual index loop of the cancellation branch (builder.rs lines
674-686): clone the handler at index `i` out of the registry values
(`protocols.read().values().nth(i)`), await its shutdown, increment, and
stop as soon as the index is out of range. -/
def handlerShutdownLoop (regv : List ProtoHandler) (i : Nat) : List ShutdownEvent :=
  match h : regv.get? i with
  | some p => ShutdownEvent.handlerShutdown p :: handlerShutdownLoop regv (i + 1)
  | none => []
termination_by regv.length - i
decreasing_by
  have hlt : i < regv.length := by
    rcases Nat.lt_or_ge i regv.length with hl | hg
    · exact hl
    · rw [List.get?_eq_none.mpr hg] at h
      cases h
  omega

/-- The full trace of shutdown effects awaited by the supervisor once the
cancellation token trips (builder.rs lines 667-741): first
`handler.inner.db.shutdown()`, then the handler loop, then — after breaking
out of the select loop — `server.close` with `Closed::ProviderTerminating`. -/
def shutdownSequence (reg : ProtocolMap) : List ShutdownEvent :=
  ShutdownEvent.storeShutdown ::
    (handlerShutdownLoop (reg.map Prod.snd) 0
      ++ [ShutdownEvent.endpointClose Closed.providerTerminating])

/-- One event delivered to the supervisor select loop
(builder.rs lines 664-730). Payloads irrelevant to control flow are
abstracted: an RPC accept result, and the result of reading the ALPN of an
inbound connection. -/
inductive RunEvent where
  | cancelled
  | rpcRequest (accepted : Except String Unit)
  | internalRpcRequest (accepted : Except String Unit)
  | inboundConn (alpnRead : Except String Alpn)
  | allSourcesClosed
deriving Repr

/-- Whether the supervisor select loop runs another iteration after the
given event (builder.rs lines 664-731): only the cancellation branch and
the exhausted `else` branch break; every RPC or connection event — whether
it succeeded or failed — falls through to the next iteration. -/
def loopContinues : RunEvent → Bool
  | RunEvent.cancelled => false
  | RunEvent.rpcRequest _ => true
  | RunEvent.internalRpcRequest _ => true
  | RunEvent.inboundConn _ => true
  | RunEvent.allSourcesClosed => false

/-- `handle_connection` (builder.rs lines 840-852): look the ALPN up in the
registry; run the handler's `accept` (whose outcome on this connection is
the oracle `acc`), propagating its error; bail with an unsupported-ALPN
error when the ALPN is not registered. -/
def handle_connection (protocols : ProtocolMap) (alpn : Alpn)
    (acc : ProtoHandler → Except String Unit) : Except String Unit :=
  match lookupProto protocols alpn with
  | some protocol => acc protocol
  | none => Except.error "ignoring connection: unsupported ALPN protocol"

/-- A content hash (abstracted). -/
abbrev Hash := Nat

/-- An event of the store's mark stream, `iroh_blobs::store::GcMarkEvent`
(external crate): a debug message, a warning, or a fatal error. -/
inductive GcMarkEvent where
  | customDebug (text : String)
  | customWarning (text : String)
  | error (err : String)
deriving DecidableEq, Repr

/-- An event of the store's sweep stream, `iroh_blobs::store::GcSweepEvent`
(external crate). -/
inductive GcSweepEvent where
  | customDebug (text : String)
  | customWarning (text : String)
  | error (err : String)
deriving DecidableEq, Repr

/-- The environment one GC cycle runs against: the store's answer to
`gc_start`, the docs engine's `content_hashes` answer (a stream whose items
may themselves be errors), and the event streams produced by `gc_mark` and
`gc_sweep`. -/
structure GcCycleEnv where
  gcStart : Except String Unit
  contentHashes : Except String (List (Except String Hash))
  markEvents : List GcMarkEvent
  sweepEvents : List GcSweepEvent

/-- An observable action of the GC loop body (builder.rs lines 752-821). -/
inductive GcAction where
  | gcStartCall
  | sleep
  | clearLive
  | markCall
  | sweepCall
  | doneCallback
deriving DecidableEq, BEq, Repr

/-- How one iteration of the GC `'outer` loop ends. -/
inductive CycleOutcome where
  | exitLoop
  | aborted
  | completed
deriving DecidableEq, Repr

/-- `Except.isOk` spelled out for the embedding. -/
def exceptIsOk {α β : Type} : Except α β → Bool
  | Except.ok _ => true
  | Except.error _ => false

/-- The `for hash in doc_hashes` loop (builder.rs lines 771-781): hashes
are inserted until the first `Err` item, which aborts the cycle
(`continue 'outer`). True iff some item is an error. -/
def hashesHaveError : List (Except String Hash) → Bool
  | [] => false
  | Except.error _ :: _ => true
  | Except.ok _ :: rest => hashesHaveError rest

/-- Whether the liveness-contribution step aborts the cycle (builder.rs
lines 763-782): only when a docs engine is present, and either
`content_hashes` itself fails or some hash item is an error. -/
def contribFails (docs : Bool) (env : GcCycleEnv) : Bool :=
  docs && (match env.contentHashes with
    | Except.error _ => true
    | Except.ok hashes => hashesHaveError hashes)

/-- The `while let` over the mark stream (builder.rs lines 786-799): debug
and warning events are logged and skipped; an `Error` event aborts the
cycle. True iff a fatal event occurs. -/
def markFatal : List GcMarkEvent → Bool
  | [] => false
  | GcMarkEvent.customDebug _ :: rest => markFatal rest
  | GcMarkEvent.customWarning _ :: rest => markFatal rest
  | GcMarkEvent.error _ :: _ => true

/-- The `while let` over the sweep stream (builder.rs lines 804-817). -/
def sweepFatal : List GcSweepEvent → Bool
  | [] => false
  | GcSweepEvent.customDebug _ :: rest => sweepFatal rest
  | GcSweepEvent.customWarning _ :: rest => sweepFatal rest
  | GcSweepEvent.error _ :: _ => true

/-- One iteration of the GC `'outer` loop (builder.rs lines 752-821):
`gc_start` (an error breaks the loop), sleep for the period, clear the
liveness set, collect the docs contribution (an error continues to the next
cycle), run the mark stream (a fatal event continues), run the sweep stream
(a fatal event continues), and finally invoke the registered done-callback
if any. Returns the trace of actions and how the iteration ended. -/
def runCycle (docs cb : Bool) (env : GcCycleEnv) : List GcAction × CycleOutcome :=
  if exceptIsOk env.gcStart = false then
    ([GcAction.gcStartCall], CycleOutcome.exitLoop)
  else if contribFails docs env then
    ([GcAction.gcStartCall, GcAction.sleep, GcAction.clearLive], CycleOutcome.aborted)
  else if markFatal env.markEvents then
    ([GcAction.gcStartCall, GcAction.sleep, GcAction.clearLive, GcAction.markCall],
      CycleOutcome.aborted)
  else if sweepFatal env.sweepEvents then
    ([GcAction.gcStartCall, GcAction.sleep, GcAction.clearLive, GcAction.markCall,
      GcAction.sweepCall], CycleOutcome.aborted)
  else
    ([GcAction.gcStartCall, GcAction.sleep, GcAction.clearLive, GcAction.markCall,
      GcAction.sweepCall] ++ (if cb then [GcAction.doneCallback] else []),
      CycleOutcome.completed)

/-- The GC `'outer` loop (`gc_loop`, builder.rs lines 744-822), driven by a
(finite prefix of the) sequence of per-cycle environments: an `exitLoop`
outcome (store rejected `gc_start`) ends the loop permanently, any other
outcome lets the loop continue with the next cycle. -/
def gcLoop (docs cb : Bool) : List GcCycleEnv → List (List GcAction × CycleOutcome)
  | [] => []
  | env :: rest =>
      let c := runCycle docs cb env
      if c.2 = CycleOutcome.exitLoop then [c] else c :: gcLoop docs cb rest

/-- A side effect awaited by `spawn` itself (builder.rs lines 472-481). -/
inductive SpawnEvent where
  | storeShutdown
deriving DecidableEq, Repr

/-- The environment a `spawn_inner` run observes: the result of
`endpoint.bind` (line 541), the result of each protocol factory in
registration order (the closures run at lines 576-579), and the result of
the 5-second wait for a first local endpoint report (lines 622-625, where a
timeout or an empty report becomes an error via `context`). -/
structure SpawnEnv where
  bindResult : Except String Unit
  factories : List (Alpn × Except String ProtoHandler)
  endpointWait : Except String Unit

/-- The factory loop of `spawn_inner` (builder.rs lines 576-579): each
factory runs in registration order and its handler is inserted into the
`ProtocolMap`; a factory error propagates out of `spawn_inner` via `?`. -/
def runFactories : List (Alpn × Except String ProtoHandler) → ProtocolMap →
    Except String ProtocolMap
  | [], acc => Except.ok acc
  | (a, r) :: rest, acc =>
      match r with
      | Except.error e => Except.error e
      | Except.ok h => runFactories rest (insertProto acc a h)

/-- `spawn_inner` (builder.rs lines 484-628), reduced to its fallible
steps: bind the endpoint, run the protocol factories, then wait up to 5
seconds for a first local-endpoint report; the first failure propagates and
no node is produced. On success the node (represented by its frozen
registry) is returned. -/
def spawn_inner (env : SpawnEnv) : Except String ProtocolMap :=
  match env.bindResult with
  | Except.error e => Except.error e
  | Except.ok _ =>
      match runFactories env.factories [] with
      | Except.error e => Except.error e
      | Except.ok reg =>
          match env.endpointWait with
          | Except.error e => Except.error e
          | Except.ok _ => Except.ok reg

/-- The protective tail of `spawn` (builder.rs lines 472-481): clone the
blob store, run `spawn_inner`, and on its error await the store's
`shutdown` before returning the error to the caller. Returns the trace of
effects awaited by `spawn` itself together with the caller-visible result.
This guard covers only `spawn_inner` failures: the fallible docs-store open
earlier in `spawn` is modelled in `spawn` below. -/
def spawnModel (env : SpawnEnv) : List SpawnEvent × Except String ProtocolMap :=
  match spawn_inner env with
  | Except.ok node => ([], Except.ok node)
  | Except.error err => ([SpawnEvent.storeShutdown], Except.error err)

/-- builder.rs line 854: `const DEFAULT_RPC_PORT: u16 = 0x1337;`. -/
def DEFAULT_RPC_PORT : Nat := 0x1337

/-- builder.rs line 855: `const MAX_RPC_CONNECTIONS: u32 = 16;`. -/
def MAX_RPC_CONNECTIONS : Nat := 16

/-- builder.rs line 856: `const MAX_RPC_STREAMS: u32 = 1024;`. -/
def MAX_RPC_STREAMS : Nat := 1024

/-- The transport parameters configured on an endpoint. -/
structure TransportConfig where
  maxConcurrentBidiStreams : Nat
  maxConcurrentUniStreams : Nat
deriving DecidableEq, Repr

/-- The server configuration built by `make_rpc_endpoint`
(builder.rs lines 864-874). -/
structure ServerConfig where
  transport : TransportConfig
  concurrentConnections : Nat
deriving DecidableEq, Repr

/-- The configuration `make_rpc_endpoint` installs: 1024 concurrent
bidirectional streams, zero unidirectional streams, 16 concurrent
connections (builder.rs lines 864-874). -/
def rpcServerConfig : ServerConfig :=
  { transport :=
      { maxConcurrentBidiStreams := MAX_RPC_STREAMS
        maxConcurrentUniStreams := 0 }
    concurrentConnections := MAX_RPC_CONNECTIONS }

/-- The outcome of `quinn::Endpoint::server` on `127.0.0.1:<port>`: bound
(carrying the actual local port reported by `local_addr`), failed with
`ErrorKind::AddrInUse`, or failed with some other I/O error. -/
inductive BindOutcome where
  | bound (actualPort : Nat)
  | addrInUse
  | otherErr (msg : String)
deriving DecidableEq, Repr

/-- The value returned by `make_rpc_endpoint`: the endpoint (represented by
its server configuration and bound local address) and the actual port. -/
structure RpcEndpointResult where
  config : ServerConfig
  boundIp : String
  actualPort : Nat
deriving DecidableEq, Repr

/-- `make_rpc_endpoint` (builder.rs lines 859-900), against a bind oracle
mapping a requested port on `127.0.0.1` to its outcome (port 0 meaning the
OS chooses): bind the preferred `rpc_port`; on `AddrInUse` log a warning
and retry on port 0, propagating any error of the retry; on any other
error return it to the caller. The returned port is the endpoint's actual
local port. -/
def make_rpc_endpoint (bind : Nat → BindOutcome) (rpc_port : Nat) :
    Except String RpcEndpointResult :=
  match bind rpc_port with
  | BindOutcome.bound p =>
      Except.ok { config := rpcServerConfig, boundIp := "127.0.0.1", actualPort := p }
  | BindOutcome.addrInUse =>
      match bind 0 with
      | BindOutcome.bound p =>
          Except.ok { config := rpcServerConfig, boundIp := "127.0.0.1", actualPort := p }
      | BindOutcome.addrInUse => Except.error "address in use"
      | BindOutcome.otherErr e => Except.error e
  | BindOutcome.otherErr e => Except.error e

/-- `StorageConfig` (builder.rs lines 114-120). -/
inductive StorageConfig where
  | Mem
  | Persistent (root : String)
deriving DecidableEq, Repr

/-- `DocsStorage` (builder.rs lines 67-73). -/
inductive DocsStorage where
  | Memory
  | Persistent (path : String)
deriving DecidableEq, Repr

/-- `GcPolicy` (builder.rs lines 826-832); the interval duration is
abstracted to a number of milliseconds. -/
inductive GcPolicy where
  | Disabled
  | Interval (millis : Nat)
deriving DecidableEq, Repr

/-- The `Builder` configuration record (builder.rs lines 88-111). Values of
external crate types — the secret key, the RPC endpoint, the blob store,
the relay mode, the DNS resolver, the discovery config, and the GC
done-callback — are abstracted to opaque numeric identifiers; what the
claims need is only whether each field is carried, replaced, or reset. -/
structure Builder where
  storage : StorageConfig
  bind_port : Option Nat
  secret_key : Nat
  rpc_endpoint : Nat
  blobs_store : Nat
  keylog : Bool
  relay_mode : Nat
  gc_policy : GcPolicy
  dns_resolver : Option Nat
  node_discovery : Nat
  docs_store : Option DocsStorage
  protocols : List (Alpn × ProtoHandler)
  insecure_skip_relay_cert_verify : Bool
  gc_done_callback : Option Nat
deriving DecidableEq, Repr

/-- `Builder::accept` (builder.rs lines 382-389): push the registration
onto `self.protocols`. -/
def Builder.accept (b : Builder) (alpn : Alpn) (handler : ProtoHandler) : Builder :=
  { b with protocols := b.protocols ++ [(alpn, handler)] }

/-- The docs database path `IrohPaths::DocsDatabase.with_root(root)`
(path layout defined outside src/). -/
def docsDbPath (root : String) : String := root ++ "/docs.redb"

/-- The builder returned by `Builder::persist` (the record construction at
builder.rs lines 234-251). The awaited loads that precede it — opening the
file-based blob store, the one-time flat-store import, and loading the
secret key from disk — are I/O, so the loaded secret key and blob store
arrive as parameters; any failure of those loads errors out of `persist`
before this record is built. -/
def Builder.persist (b : Builder) (root : String)
    (loaded_secret_key loaded_blobs_store : Nat) : Builder :=
  { storage := StorageConfig.Persistent root
    bind_port := b.bind_port
    secret_key := loaded_secret_key
    rpc_endpoint := b.rpc_endpoint
    blobs_store := loaded_blobs_store
    keylog := b.keylog
    relay_mode := b.relay_mode
    gc_policy := b.gc_policy
    dns_resolver := b.dns_resolver
    node_discovery := b.node_discovery
    docs_store := some (DocsStorage.Persistent (docsDbPath root))
    protocols := []
    insecure_skip_relay_cert_verify := false
    gc_done_callback := b.gc_done_callback }

/-- The builder returned by `Builder::rpc_endpoint` (the record
construction at builder.rs lines 253-273), which installs the supplied RPC
endpoint value. -/
def Builder.with_rpc_endpoint (b : Builder) (value : Nat) : Builder :=
  { storage := b.storage
    bind_port := b.bind_port
    secret_key := b.secret_key
    rpc_endpoint := value
    blobs_store := b.blobs_store
    keylog := b.keylog
    relay_mode := b.relay_mode
    gc_policy := b.gc_policy
    dns_resolver := b.dns_resolver
    node_discovery := b.node_discovery
    docs_store := b.docs_store
    protocols := []
    insecure_skip_relay_cert_verify := b.insecure_skip_relay_cert_verify
    gc_done_callback := b.gc_done_callback }

/-- The builder returned by `Builder::enable_rpc` (the record construction
at builder.rs lines 283-299); `ep` is the endpoint obtained from
`make_rpc_endpoint(&self.secret_key, DEFAULT_RPC_PORT)`, whose failure
errors out of `enable_rpc` before this record is built. -/
def Builder.enable_rpc (b : Builder) (ep : Nat) : Builder :=
  { storage := b.storage
    bind_port := b.bind_port
    secret_key := b.secret_key
    rpc_endpoint := ep
    blobs_store := b.blobs_store
    keylog := b.keylog
    relay_mode := b.relay_mode
    gc_policy := b.gc_policy
    dns_resolver := b.dns_resolver
    node_discovery := b.node_discovery
    docs_store := b.docs_store
    protocols := []
    insecure_skip_relay_cert_verify := b.insecure_skip_relay_cert_verify
    gc_done_callback := b.gc_done_callback }

/-- `Builder::spawn` (builder.rs lines 413-482). The built-in blobs and
gossip registrations are infallible pushes; when a docs store is
configured, `spawn` opens it first (lines 436-441): the in-memory open is
infallible, but the persistent open
`iroh_docs::store::fs::Store::persistent(path)?` — result `docsOpen` —
propagates its error out of `spawn` at once, BEFORE the protective
clone-and-match of lines 472-481, so on that path no store shutdown is
awaited (the event trace is empty). Only then does the guarded
`spawn_inner` run. -/
def spawn (docs_store : Option DocsStorage) (docsOpen : Except String Unit)
    (env : SpawnEnv) : List SpawnEvent × Except String ProtocolMap :=
  match docs_store with
  | none => spawnModel env
  | some DocsStorage.Memory => spawnModel env
  | some (DocsStorage.Persistent _) =>
      match docsOpen with
      | Except.error e => ([], Except.error e)
      | Except.ok _ => spawnModel env

/-- A concrete builder used to exhibit counterexamples: in-memory storage,
docs enabled, the relay-certificate test flag set, and one user protocol
registered. -/
def builderEx : Builder :=
  { storage := StorageConfig.Mem
    bind_port := none
    secret_key := 1
    rpc_endpoint := 0
    blobs_store := 2
    keylog := false
    relay_mode := 0
    gc_policy := GcPolicy.Disabled
    dns_resolver := none
    node_discovery := 0
    docs_store := some DocsStorage.Memory
    protocols := [("example-proto/0", ProtoHandler.user 7)]
    insecure_skip_relay_cert_verify := true
    gc_done_callback := none }

/-! ## Helper lemmas about the registry -/

theorem lookupProto_insertProto_self (m : ProtocolMap) (a : Alpn) (h : ProtoHandler) :
    lookupProto (insertProto m a h) a = some h := by
  induction m with
  | nil => simp [insertProto, lookupProto]
  | cons kv rest ih =>
      obtain ⟨k, v⟩ := kv
      by_cases hk : k = a
      · simp [insertProto, lookupProto, hk]
      · simp [insertProto, lookupProto, hk, ih]

theorem lookupProto_insertProto_ne (m : ProtocolMap) (a b : Alpn) (h : ProtoHandler)
    (hne : b ≠ a) : lookupProto (insertProto m a h) b = lookupProto m b := by
  have hab : a ≠ b := fun hab => hne hab.symm
  induction m with
  | nil => simp [insertProto, lookupProto, hab]
  | cons kv rest ih =>
      obtain ⟨k, v⟩ := kv
      by_cases hk : k = a
      · subst hk
        simp [insertProto, lookupProto, hab]
      · simp [insertProto, lookupProto, hk, ih]

theorem registryOf_true_eq (user : List (Alpn × ProtoHandler)) :
    registryOf true user =
      insertProto
        (insertProto
          (insertProto (user.foldl (fun m p => insertProto m p.1 p.2) [])
            BLOBS_ALPN ProtoHandler.builtinBlobs)
          GOSSIP_ALPN ProtoHandler.builtinGossip)
        DOCS_ALPN ProtoHandler.builtinDocs := by
  simp [registryOf, spawnRegistrations, List.foldl_append]

theorem registryOf_false_eq (user : List (Alpn × ProtoHandler)) :
    registryOf false user =
      insertProto
        (insertProto (user.foldl (fun m p => insertProto m p.1 p.2) [])
          BLOBS_ALPN ProtoHandler.builtinBlobs)
        GOSSIP_ALPN ProtoHandler.builtinGossip := by
  simp [registryOf, spawnRegistrations, List.foldl_append]

/-! ## Claim theorems -/

/-- Claim C1, counterexample: a user registers a handler under the blob
ALPN (a built-in ALPN); the registry of the spawned node does NOT map that
ALPN to the user handler, because `spawn` appends the built-in
registrations after the user registrations and the later insertion
overrides. -/
theorem c1_user_override_counterexample :
    lookupProto (registryOf true [(BLOBS_ALPN, ProtoHandler.user 0)]) BLOBS_ALPN
      ≠ some (ProtoHandler.user 0) := by
  decide

/-- Claim C1 as amended: duplicate-ALPN registrations override earlier
ones, but the built-in registrations are applied after the user
registrations (`spawn` pushes them via `accept`, which appends), so for
every builder — whatever the user registrations — each built-in ALPN ends
up mapped to the built-in handler. -/
theorem c1_builtins_override_user :
    (∀ (m : ProtocolMap) (a : Alpn) (h : ProtoHandler),
        lookupProto (insertProto m a h) a = some h)
    ∧ (∀ user : List (Alpn × ProtoHandler),
        lookupProto (registryOf true user) BLOBS_ALPN = some ProtoHandler.builtinBlobs
        ∧ lookupProto (registryOf true user) GOSSIP_ALPN = some ProtoHandler.builtinGossip
        ∧ lookupProto (registryOf true user) DOCS_ALPN = some ProtoHandler.builtinDocs)
    ∧ (∀ user : List (Alpn × ProtoHandler),
        lookupProto (registryOf false user) BLOBS_ALPN = some ProtoHandler.builtinBlobs
        ∧ lookupProto (registryOf false user) GOSSIP_ALPN
            = some ProtoHandler.builtinGossip) := by
  refine ⟨lookupProto_insertProto_self, fun user => ⟨?_, ?_, ?_⟩, fun user => ⟨?_, ?_⟩⟩
  · rw [registryOf_true_eq,
      lookupProto_insertProto_ne _ _ _ _ (by decide),
      lookupProto_insertProto_ne _ _ _ _ (by decide),
      lookupProto_insertProto_self]
  · rw [registryOf_true_eq,
      lookupProto_insertProto_ne _ _ _ _ (by decide),
      lookupProto_insertProto_self]
  · rw [registryOf_true_eq, lookupProto_insertProto_self]
  · rw [registryOf_false_eq,
      lookupProto_insertProto_ne _ _ _ _ (by decide),
      lookupProto_insertProto_self]
  · rw [registryOf_false_eq, lookupProto_insertProto_self]

/-- Claim C6, counterexample: even with no user registrations, the ALPN
list handed to the endpoint is not the duplicate-free union of the built-in
ALPNs and the user ALPNs — the `PROTOCOLS` constants are chained with the
registration vector, which by then contains the built-in registrations
again, so each built-in ALPN appears twice. -/
theorem c6_advertised_counterexample :
    advertisedAlpns true [] ≠ specAdvertisedUnion [] := by
  decide

/-- Claim C6 as amended: the advertised ALPN list is the three `PROTOCOLS`
constants followed by the ALPNs of the registration vector in order — the
user registrations first, then the built-in registrations that `spawn`
appended — with duplicates retained. -/
theorem c6_advertised_alpns_eq (docsEnabled : Bool) (user : List (Alpn × ProtoHandler)) :
    advertisedAlpns docsEnabled user =
      PROTOCOLS ++ (user.map Prod.fst ++ ([BLOBS_ALPN, GOSSIP_ALPN]
        ++ (if docsEnabled then [DOCS_ALPN] else []))) := by
  cases docsEnabled <;>
    simp [advertisedAlpns, alpnsOf, spawnRegistrations]

/-- The index loop visits exactly the registry values from index `i`
onward, in order. -/
theorem handlerShutdownLoop_map (regv : List ProtoHandler) (i : Nat) :
    handlerShutdownLoop regv i = (regv.drop i).map ShutdownEvent.handlerShutdown := by
  have main : ∀ (n j : Nat), regv.length - j ≤ n →
      handlerShutdownLoop regv j = (regv.drop j).map ShutdownEvent.handlerShutdown := by
    intro n
    induction n with
    | zero =>
        intro j hle
        have hge : regv.length ≤ j := by omega
        rw [handlerShutdownLoop]
        rw [List.get?_eq_none.mpr hge, List.drop_eq_nil_of_le hge]
        rfl
    | succ n ih =>
        intro j hle
        rw [handlerShutdownLoop]
        cases hg : regv.get? j with
        | none =>
            have hge : regv.length ≤ j := List.get?_eq_none.mp hg
            rw [List.drop_eq_nil_of_le hge]
            rfl
        | some p =>
            have hlt : j < regv.length := by
              rcases Nat.lt_or_ge j regv.length with hl | hgge
              · exact hl
              · rw [List.get?_eq_none.mpr hgge] at hg
                cases hg
            have hget : regv[j] = p := by
              have h1 : regv[j]? = some p := by
                rw [← List.get?_eq_getElem?]
                exact hg
              rw [List.getElem?_eq_getElem hlt] at h1
              exact Option.some.inj h1
            have hdrop : regv.drop j = p :: regv.drop (j + 1) := by
              rw [List.drop_eq_getElem_cons hlt, hget]
            rw [hdrop, ih (j + 1) (by omega)]
            rfl
  exact main regv.length i (by omega)

/-- Claim C2: when the cancellation token trips, the supervisor awaits the
blob store shutdown first, then the shutdown of every registered handler —
cloning the handler at index i out of the registry, in registry order,
until the index is out of range — and only after all handler shutdowns does
it close the endpoint with the provider-terminating error code, as the last
effect. -/
theorem c2_shutdown_sequence_order (reg : ProtocolMap) :
    shutdownSequence reg =
      ShutdownEvent.storeShutdown ::
        ((reg.map Prod.snd).map ShutdownEvent.handlerShutdown
          ++ [ShutdownEvent.endpointClose Closed.providerTerminating]) := by
  rw [shutdownSequence, handlerShutdownLoop_map]
  rfl

/-- Claim C3: a GC cycle that aborts during the liveness-contribution step
(an error obtaining the docs contribution) or during the mark phase (a
fatal mark event) never calls `gc_sweep` in that cycle. -/
theorem c3_gc_abort_no_sweep (docs cb : Bool) (env : GcCycleEnv)
    (h : contribFails docs env = true ∨ markFatal env.markEvents = true) :
    GcAction.sweepCall ∉ (runCycle docs cb env).1 := by
  unfold runCycle
  split_ifs with h1 h2 h3 h4 <;> simp_all

/-- Claim C3 witness: in a cycle whose mark stream ends in a fatal event,
no sweep call appears in the trace. -/
theorem c3_gc_abort_no_sweep_witness :
    GcAction.sweepCall ∉ (runCycle true true
      { gcStart := Except.ok ()
        contentHashes := Except.ok []
        markEvents := [GcMarkEvent.error "mark failed"]
        sweepEvents := [] }).1 :=
  c3_gc_abort_no_sweep true true
    { gcStart := Except.ok ()
      contentHashes := Except.ok []
      markEvents := [GcMarkEvent.error "mark failed"]
      sweepEvents := [] }
    (Or.inr (by decide))

/-- Claim C4: a GC iteration ends the loop permanently exactly when the
store rejects `gc_start`; on any other outcome — including a cycle aborted
by a failed contribution, a fatal mark event, or a fatal sweep event — the
loop continues with the next cycle. -/
theorem c4_gc_loop_exit_iff (docs cb : Bool) (env : GcCycleEnv) (rest : List GcCycleEnv) :
    ((runCycle docs cb env).2 = CycleOutcome.exitLoop ↔ exceptIsOk env.gcStart = false)
    ∧ (exceptIsOk env.gcStart = false →
        gcLoop docs cb (env :: rest) = [runCycle docs cb env])
    ∧ (exceptIsOk env.gcStart = true →
        gcLoop docs cb (env :: rest) = runCycle docs cb env :: gcLoop docs cb rest) := by
  have hiff : (runCycle docs cb env).2 = CycleOutcome.exitLoop
      ↔ exceptIsOk env.gcStart = false := by
    unfold runCycle
    split_ifs <;> simp_all
  refine ⟨hiff, fun h => ?_, fun h => ?_⟩
  · simp [gcLoop, hiff.mpr h]
  · have hne : ¬(runCycle docs cb env).2 = CycleOutcome.exitLoop := by
      rw [hiff, h]
      simp
    simp [gcLoop, hne]

/-- Claim C4 witness: a store that rejects `gc_start` ends the loop with
that single cycle, the following cycle environments never being consumed. -/
theorem c4_gc_loop_exit_iff_witness :
    gcLoop true true
      [{ gcStart := Except.error "gc refused"
         contentHashes := Except.ok []
         markEvents := []
         sweepEvents := [] },
       { gcStart := Except.ok ()
         contentHashes := Except.ok []
         markEvents := []
         sweepEvents := [] }] =
      [runCycle true true
        { gcStart := Except.error "gc refused"
          contentHashes := Except.ok []
          markEvents := []
          sweepEvents := [] }] :=
  (c4_gc_loop_exit_iff true true
    { gcStart := Except.error "gc refused"
      contentHashes := Except.ok []
      markEvents := []
      sweepEvents := [] }
    [{ gcStart := Except.ok ()
       contentHashes := Except.ok []
       markEvents := []
       sweepEvents := [] }]).2.1 (by decide)

/-- Claim C10: when a done-callback is registered, a GC cycle invokes it
exactly once if the cycle runs to completion — `gc_start` accepted, the
contribution obtained, and neither the mark stream nor the sweep stream
producing a fatal event — and never invokes it in a cycle that aborts at
the contribution, mark, or sweep phase (or that exits the loop). -/
theorem c10_gc_done_callback_count (docs cb : Bool) (env : GcCycleEnv) :
    (runCycle docs cb env).1.count GcAction.doneCallback =
      (if cb && exceptIsOk env.gcStart && !contribFails docs env
          && !markFatal env.markEvents && !sweepFatal env.sweepEvents
        then 1 else 0) := by
  unfold runCycle
  split_ifs with h1 h2 h3 h4 <;> cases cb <;> simp_all [List.count_cons] <;> decide

/-- Claim C5, code behavior at the failing input: a builder whose
persistent docs store fails to open makes `spawn` fail with that error and
an EMPTY effect trace — the blob store's shutdown is never awaited, because
the error propagates out of `spawn` (builder.rs line 440) before the
protective clone-and-match of lines 472-481 is reached. This contradicts
the claim's guarantee for every failing spawn, and the code's own comment
at line 472 stating the clone exists to shut the store down in case the
node fails to spawn. -/
theorem c5_spawn_docs_open_failure_no_shutdown :
    spawn (some (DocsStorage.Persistent "/data/iroh/docs.redb"))
      (Except.error "failed to open docs store")
      { bindResult := Except.ok ()
        factories := [(BLOBS_ALPN, Except.ok ProtoHandler.builtinBlobs)]
        endpointWait := Except.ok () } =
      ([], Except.error "failed to open docs store") := rfl

/-- Claim C7: a connection whose ALPN is not a key of the registry makes
`handle_connection` return an error (the connection is dropped with a
warning by the spawned task), while a registered ALPN dispatches to the
handler's accept, whose error is likewise only reported; in both cases the
supervisor select loop runs another iteration — only cancellation or the
exhaustion of all sources ends it. -/
theorem c7_connection_dispatch (reg : ProtocolMap) (alpn : Alpn)
    (acc : ProtoHandler → Except String Unit) (readRes : Except String Alpn) :
    (lookupProto reg alpn = none →
        handle_connection reg alpn acc =
          Except.error "ignoring connection: unsupported ALPN protocol")
    ∧ (∀ p, lookupProto reg alpn = some p → handle_connection reg alpn acc = acc p)
    ∧ loopContinues (RunEvent.inboundConn readRes) = true := by
  refine ⟨fun h => ?_, fun p h => ?_, rfl⟩ <;> simp [handle_connection, h]

/-- Claim C7 witness: against an empty registry, a connection advertising
an unregistered ALPN is rejected with the unsupported-ALPN error, and the
loop keeps running. -/
theorem c7_connection_dispatch_witness :
    handle_connection [] "example-proto/0" (fun _ => Except.ok ()) =
        Except.error "ignoring connection: unsupported ALPN protocol"
      ∧ loopContinues (RunEvent.inboundConn (Except.ok "example-proto/0")) = true :=
  ⟨(c7_connection_dispatch [] "example-proto/0" (fun _ => Except.ok ())
      (Except.ok "example-proto/0")).1 rfl,
   (c7_connection_dispatch [] "example-proto/0" (fun _ => Except.ok ())
      (Except.ok "example-proto/0")).2.2⟩

/-- Claim C8: `make_rpc_endpoint` first binds 127.0.0.1 at the preferred
port (0x1337 when called from `enable_rpc`); an address-in-use failure
falls back to an OS-chosen port, whose actual value is returned; any other
bind error is returned to the caller; and the endpoint is configured with
at most 16 concurrent connections, 1024 concurrent bidirectional streams,
and zero unidirectional streams. -/
theorem c8_make_rpc_endpoint_behavior (bind : Nat → BindOutcome) :
    (∀ p, bind DEFAULT_RPC_PORT = BindOutcome.bound p →
        make_rpc_endpoint bind DEFAULT_RPC_PORT =
          Except.ok { config := rpcServerConfig, boundIp := "127.0.0.1", actualPort := p })
    ∧ (∀ p, bind DEFAULT_RPC_PORT = BindOutcome.addrInUse → bind 0 = BindOutcome.bound p →
        make_rpc_endpoint bind DEFAULT_RPC_PORT =
          Except.ok { config := rpcServerConfig, boundIp := "127.0.0.1", actualPort := p })
    ∧ (∀ e, bind DEFAULT_RPC_PORT = BindOutcome.otherErr e →
        make_rpc_endpoint bind DEFAULT_RPC_PORT = Except.error e)
    ∧ DEFAULT_RPC_PORT = 0x1337
    ∧ rpcServerConfig.concurrentConnections = 16
    ∧ rpcServerConfig.transport.maxConcurrentBidiStreams = 1024
    ∧ rpcServerConfig.transport.maxConcurrentUniStreams = 0 := by
  refine ⟨fun p h => ?_, fun p h h0 => ?_, fun e h => ?_, rfl, rfl, rfl, rfl⟩ <;>
    simp [make_rpc_endpoint, h]
  rw [h0]

/-- Claim C8 witness: with port 0x1337 in use and the OS offering 5555,
the fallback endpoint is returned with the actual port 5555 and the
documented limits. -/
theorem c8_make_rpc_endpoint_witness :
    make_rpc_endpoint
      (fun p => if p = 0x1337 then BindOutcome.addrInUse else BindOutcome.bound 5555)
      DEFAULT_RPC_PORT =
      Except.ok { config := rpcServerConfig, boundIp := "127.0.0.1", actualPort := 5555 } :=
  (c8_make_rpc_endpoint_behavior
    (fun p => if p = 0x1337 then BindOutcome.addrInUse else BindOutcome.bound 5555)).2.1
    5555 (by decide) (by decide)

/-- Claim C9, counterexample: `Builder::persist` does not carry over the
other configuration fields — it unconditionally resets the
relay-certificate test flag to false (builder.rs line 248), so a builder
with that flag set does not keep it across `persist`. -/
theorem c9_persist_carryover_counterexample :
    (builderEx.persist "/data/iroh" 5 9).insecure_skip_relay_cert_verify
      ≠ builderEx.insecure_skip_relay_cert_verify := by
  decide

/-- Claim C9 as amended: `persist`, `rpc_endpoint` and `enable_rpc` all
reset the registered-protocol list to empty, so registrations made via
`accept` before such a call are absent from the resulting builder;
`rpc_endpoint` and `enable_rpc` carry over every other field, replacing
only the RPC endpoint; `persist` carries over the bind port, keylog flag,
RPC endpoint, relay mode, DNS resolver, GC policy, discovery config and GC
done-callback, while replacing the storage root, secret key, blob store
and docs store, and resetting the relay-certificate test flag to false. -/
theorem c9_rpc_and_persist_reset_protocols (b : Builder) (a : Alpn) (h : ProtoHandler)
    (value ep : Nat) (root : String) (key store2 : Nat) :
    (b.accept a h).protocols = b.protocols ++ [(a, h)]
    ∧ ((b.accept a h).with_rpc_endpoint value).protocols = []
    ∧ ((b.accept a h).enable_rpc ep).protocols = []
    ∧ ((b.accept a h).persist root key store2).protocols = []
    ∧ (b.with_rpc_endpoint value).storage = b.storage
    ∧ (b.with_rpc_endpoint value).bind_port = b.bind_port
    ∧ (b.with_rpc_endpoint value).secret_key = b.secret_key
    ∧ (b.with_rpc_endpoint value).rpc_endpoint = value
    ∧ (b.with_rpc_endpoint value).blobs_store = b.blobs_store
    ∧ (b.with_rpc_endpoint value).keylog = b.keylog
    ∧ (b.with_rpc_endpoint value).relay_mode = b.relay_mode
    ∧ (b.with_rpc_endpoint value).gc_policy = b.gc_policy
    ∧ (b.with_rpc_endpoint value).dns_resolver = b.dns_resolver
    ∧ (b.with_rpc_endpoint value).node_discovery = b.node_discovery
    ∧ (b.with_rpc_endpoint value).docs_store = b.docs_store
    ∧ (b.with_rpc_endpoint value).insecure_skip_relay_cert_verify
        = b.insecure_skip_relay_cert_verify
    ∧ (b.with_rpc_endpoint value).gc_done_callback = b.gc_done_callback
    ∧ (b.enable_rpc ep).storage = b.storage
    ∧ (b.enable_rpc ep).bind_port = b.bind_port
    ∧ (b.enable_rpc ep).secret_key = b.secret_key
    ∧ (b.enable_rpc ep).rpc_endpoint = ep
    ∧ (b.enable_rpc ep).blobs_store = b.blobs_store
    ∧ (b.enable_rpc ep).keylog = b.keylog
    ∧ (b.enable_rpc ep).relay_mode = b.relay_mode
    ∧ (b.enable_rpc ep).gc_policy = b.gc_policy
    ∧ (b.enable_rpc ep).dns_resolver = b.dns_resolver
    ∧ (b.enable_rpc ep).node_discovery = b.node_discovery
    ∧ (b.enable_rpc ep).docs_store = b.docs_store
    ∧ (b.enable_rpc ep).insecure_skip_relay_cert_verify
        = b.insecure_skip_relay_cert_verify
    ∧ (b.enable_rpc ep).gc_done_callback = b.gc_done_callback
    ∧ (b.persist root key store2).bind_port = b.bind_port
    ∧ (b.persist root key store2).keylog = b.keylog
    ∧ (b.persist root key store2).rpc_endpoint = b.rpc_endpoint
    ∧ (b.persist root key store2).relay_mode = b.relay_mode
    ∧ (b.persist root key store2).dns_resolver = b.dns_resolver
    ∧ (b.persist root key store2).gc_policy = b.gc_policy
    ∧ (b.persist root key store2).node_discovery = b.node_discovery
    ∧ (b.persist root key store2).gc_done_callback = b.gc_done_callback
    ∧ (b.persist root key store2).storage = StorageConfig.Persistent root
    ∧ (b.persist root key store2).secret_key = key
    ∧ (b.persist root key store2).blobs_store = store2
    ∧ (b.persist root key store2).docs_store
        = some (DocsStorage.Persistent (docsDbPath root))
    ∧ (b.persist root key store2).insecure_skip_relay_cert_verify = false := by
  simp [Builder.accept, Builder.with_rpc_endpoint, Builder.enable_rpc, Builder.persist]

end Iroh
